import Mathlib

/-!
Verification of the AutoFeeder core (kinematics engine and profile store)
against its natural-language specification.

The C++ sources (src/kinematics.cpp, src/Profile.cpp) compute over IEEE
`float`. We embed a float value as either NaN or a real number. Signed
infinities are not represented: the only operations in this code that can
produce an infinity are divisions by a zero magnitude, and on every such
path the infinite quotient is immediately multiplied by a zero factor (or
arises as 0/0), so the final stored value is NaN in IEEE arithmetic exactly
as it is here. Division by zero therefore yields NaN directly in this model,
and `sqrt` of a negative argument yields NaN, as in IEEE. Comparisons
(<, >) are false whenever an operand is NaN, matching IEEE ordered
comparisons.
-/

namespace AutoFeeder

noncomputable section

/-- Embedded float value: NaN or a real number. -/
inductive F where
  | nan : F
  | fin : ℝ → F

/-- Float addition; NaN propagates. -/
def fadd : F → F → F
  | F.fin a, F.fin b => F.fin (a + b)
  | _, _ => F.nan

/-- Float subtraction; NaN propagates. -/
def fsub : F → F → F
  | F.fin a, F.fin b => F.fin (a - b)
  | _, _ => F.nan

/-- Float multiplication; NaN propagates. -/
def fmul : F → F → F
  | F.fin a, F.fin b => F.fin (a * b)
  | _, _ => F.nan

/-- Float division; NaN propagates, and division by zero yields NaN
(see the header comment for why this is faithful on every reachable path). -/
def fdiv : F → F → F
  | F.fin a, F.fin b => if b = 0 then F.nan else F.fin (a / b)
  | _, _ => F.nan

/-- C library `sqrtf`: NaN on negative input, NaN propagates. -/
def fsqrt : F → F
  | F.fin a => if a < 0 then F.nan else F.fin (Real.sqrt a)
  | F.nan => F.nan

/-- C library `sinf`; NaN propagates. -/
def fsin : F → F
  | F.fin a => F.fin (Real.sin a)
  | F.nan => F.nan

/-- C library `cosf`; NaN propagates. -/
def fcos : F → F
  | F.fin a => F.fin (Real.cos a)
  | F.nan => F.nan

/-- Real-valued `atan2 y x`, written via the complex argument function,
which has the same convention: angle of the point (x, y) in (-pi, pi]. -/
def atan2 (y x : ℝ) : ℝ :=
  Complex.arg { re := x, im := y }

/-- C library `atan2f`; NaN propagates. -/
def fatan2 : F → F → F
  | F.fin a, F.fin b => F.fin (atan2 a b)
  | _, _ => F.nan

/-- IEEE ordered less-than: false when an operand is NaN. -/
def flt : F → F → Bool
  | F.fin a, F.fin b => decide (a < b)
  | _, _ => false

/-- IEEE ordered greater-than: false when an operand is NaN. -/
def fgt : F → F → Bool
  | F.fin a, F.fin b => decide (b < a)
  | _, _ => false

/-- C library `isnan`. -/
def fisnan : F → Bool
  | F.nan => true
  | F.fin _ => false

/-- Modelled from the spec: the link lengths `L1`, `L2` are declared
`extern const float` in kinematics.h but defined outside the provided
sources; the spec's boundary examples fix `L1 = 104.5`, `L2 = 105`. -/
def L1 : ℝ := 104.5

/-- Modelled from the spec: see `L1`. -/
def L2 : ℝ := 105

/-- kinematics.cpp `dist_sq`: squared Euclidean distance between two points. -/
def dist_sq (x1 y1 x2 y2 : F) : F :=
  fadd (fmul (fsub x1 x2) (fsub x1 x2)) (fmul (fsub y1 y2) (fsub y1 y2))

/-- kinematics.cpp `twoLinkIK`: two-link inverse kinematics. On failure the
C function returns false without writing the out-parameters; here that is
`none`. -/
def twoLinkIK (x y a b : F) (elbowup : Bool) : Option (F × F) :=
  let D := fdiv (fsub (fsub (fadd (fmul x x) (fmul y y)) (fmul a a)) (fmul b b))
      (fmul (fmul (F.fin 2) a) b)
  if fgt D (F.fin 1) then none
  else
    let t2 := fatan2 (fmul (F.fin (if elbowup then 1 else -1))
        (fsqrt (fsub (F.fin 1) (fmul D D)))) D
    let t1 := fsub (fatan2 y x) (fatan2 (fmul b (fsin t2)) (fadd a (fmul b (fcos t2))))
    some (t1, t2)

/-- kinematics.cpp `calc_ik`: elbow-up two-link IK with the arm's link lengths. -/
def calc_ik (x y : F) : Option (F × F) :=
  twoLinkIK x y (F.fin L1) (F.fin L2) true

/-- kinematics.cpp `calc_fk`: the pair (x, y) written to the out-parameters.
The C function is declared `bool` but its body has no return statement
(the return value is undefined); only the written outputs are modelled. -/
def calc_fk (q1 q2 : F) : F × F :=
  (fadd (fmul (F.fin L1) (fcos q1)) (fmul (F.fin L2) (fcos (fadd q1 q2))),
   fadd (fmul (F.fin L1) (fsin q1)) (fmul (F.fin L2) (fsin (fadd q1 q2))))

/-- kinematics.cpp `constrain_ik_point`: returns the (possibly clamped)
point and the `modified` flag. Each stage `s1`-`s4` is one clamp of the C
function in source order; the C `modified` variable is the disjunction of
the per-stage flags. -/
def constrain_ik_point (x y : F) : (F × F) × Bool :=
  if fisnan x || fisnan y then ((F.fin 0, F.fin (-100)), true)
  else
    let max_mag : F := F.fin (L1 + L2)
    let min_mag : F := F.fin 10
    let mag := fsqrt (fadd (fmul x x) (fmul y y))
    let s1 : (F × F) × Bool :=
      if fgt mag max_mag then
        ((fmul x (fdiv max_mag mag), fmul y (fdiv max_mag mag)), true)
      else if flt mag min_mag then
        ((fmul x (fdiv min_mag mag), fmul y (fdiv min_mag mag)), true)
      else ((x, y), false)
    let mag2 := fsqrt (dist_sq s1.1.1 s1.1.2 (F.fin (-L1)) (F.fin 0))
    let s2 : (F × F) × Bool :=
      if flt mag2 (F.fin L1) then
        ((fsub (fdiv (fmul (fadd s1.1.1 (F.fin L1)) (F.fin L1)) mag2) (F.fin L1),
          fdiv (fmul s1.1.2 (F.fin L1)) mag2), true)
      else (s1.1, false)
    let s3 : (F × F) × Bool :=
      if fgt s2.1.2 (F.fin (-0.001)) then ((s2.1.1, F.fin (-0.001)), true)
      else (s2.1, false)
    let s4 : (F × F) × Bool :=
      if flt s3.1.1 (F.fin (-0.9 * (L1 + L2))) then
        ((F.fin (-0.9 * (L1 + L2)), s3.1.2), true)
      else (s3.1, false)
    (s4.1, s1.2 || s2.2 || s3.2 || s4.2)

/-- Behaviour of the call `constrain_ik_point(p.end_y, p.end_y)` at
Profile.cpp line 47, where both reference parameters alias the same float
cell `v`. Each assignment of the C body is applied to the single cell in
source order: in the NaN branch the cell receives 0 then -100; in a scaling
branch the cell is multiplied by the (fixed) quotient twice; in the
forbidden-disc branch the second assignment reads the cell already updated
by the first. Returns the final cell value and the `modified` flag. -/
def constrain_ik_point_alias (v : F) : F × Bool :=
  if fisnan v || fisnan v then (F.fin (-100), true)
  else
    let max_mag : F := F.fin (L1 + L2)
    let min_mag : F := F.fin 10
    let mag := fsqrt (fadd (fmul v v) (fmul v v))
    let s1 : F × Bool :=
      if fgt mag max_mag then
        (fmul (fmul v (fdiv max_mag mag)) (fdiv max_mag mag), true)
      else if flt mag min_mag then
        (fmul (fmul v (fdiv min_mag mag)) (fdiv min_mag mag), true)
      else (v, false)
    let mag2 := fsqrt (dist_sq s1.1 s1.1 (F.fin (-L1)) (F.fin 0))
    let s2 : F × Bool :=
      if flt mag2 (F.fin L1) then
        (fdiv (fmul (fsub (fdiv (fmul (fadd s1.1 (F.fin L1)) (F.fin L1)) mag2) (F.fin L1))
            (F.fin L1)) mag2, true)
      else (s1.1, false)
    let s3 : F × Bool :=
      if fgt s2.1 (F.fin (-0.001)) then (F.fin (-0.001), true)
      else (s2.1, false)
    let s4 : F × Bool :=
      if flt s3.1 (F.fin (-0.9 * (L1 + L2))) then (F.fin (-0.9 * (L1 + L2)), true)
      else (s3.1, false)
    (s4.1, s1.2 || s2.2 || s3.2 || s4.2)

/-- Profile.h `Profile`: 5 named waypoints, 10 floats. -/
structure Profile where
  entry_x : F
  entry_y : F
  bottom_x : F
  bottom_y : F
  middle_x : F
  middle_y : F
  front_x : F
  front_y : F
  end_x : F
  end_y : F

/-- Profile.h `NUM_PROFILES`. -/
def NUM_PROFILES : ℕ := 4

/-- Profile.cpp `PROFILE_EEPROM_LEN`. -/
def PROFILE_EEPROM_LEN : ℕ := 4

/-- Profile.cpp `plate_profile`. -/
def plate_profile : Profile :=
  { entry_x := F.fin (-80), entry_y := F.fin (-155)
    bottom_x := F.fin (-76), bottom_y := F.fin (-175)
    middle_x := F.fin 0, middle_y := F.fin (-177.5)
    front_x := F.fin 76, front_y := F.fin (-180)
    end_x := F.fin 80, end_y := F.fin (-155) }

/-- Profile.cpp `bowl_profile`. -/
def bowl_profile : Profile :=
  { entry_x := F.fin (-75), entry_y := F.fin (-82.5)
    bottom_x := F.fin (-70), bottom_y := F.fin (-175)
    middle_x := F.fin 0, middle_y := F.fin (-175)
    front_x := F.fin 70, front_y := F.fin (-175)
    end_x := F.fin 60, end_y := F.fin (-90) }

/-- EEPROM contents. A Profile occupies sizeof(Profile) = 40 bytes = 10
floats; every access in this program transfers a whole Profile at byte
offset sizeof(Profile) * idx from PROFILE_EEPROM_START = 0, so the store is
modelled at 4-byte float granularity: cell `a` is the float at byte offset
4 * a, and slot `idx` occupies cells 10 * idx .. 10 * idx + 9. -/
def EEPROM : Type := ℕ → F

/-- Arduino `EEPROM.put` of a Profile at float-cell address `addr`. -/
def eeprom_put (e : EEPROM) (addr : ℕ) (p : Profile) : EEPROM :=
  fun a =>
    if a = addr then p.entry_x
    else if a = addr + 1 then p.entry_y
    else if a = addr + 2 then p.bottom_x
    else if a = addr + 3 then p.bottom_y
    else if a = addr + 4 then p.middle_x
    else if a = addr + 5 then p.middle_y
    else if a = addr + 6 then p.front_x
    else if a = addr + 7 then p.front_y
    else if a = addr + 8 then p.end_x
    else if a = addr + 9 then p.end_y
    else e a

/-- Arduino `EEPROM.get` of a Profile at float-cell address `addr`. -/
def eeprom_get (e : EEPROM) (addr : ℕ) : Profile :=
  { entry_x := e addr, entry_y := e (addr + 1)
    bottom_x := e (addr + 2), bottom_y := e (addr + 3)
    middle_x := e (addr + 4), middle_y := e (addr + 5)
    front_x := e (addr + 6), front_y := e (addr + 7)
    end_x := e (addr + 8), end_y := e (addr + 9) }

/-- Profile.cpp `save_profile`. `idx` is the value of the `uint8_t`
parameter (0 .. 255). Returns the success flag and the updated storage. -/
def save_profile (e : EEPROM) (p : Profile) (idx : ℕ) : Bool × EEPROM :=
  if PROFILE_EEPROM_LEN ≤ idx then (false, e)
  else (true, eeprom_put e (10 * idx) p)

/-- Profile.cpp `load_profile`. `p` is the caller's out-struct, returned
unchanged on failure. On success the profile read from storage is clamped:
`constrain_ik_point` on (entry, bottom, middle, front), and the aliased
call `constrain_ik_point(p.end_y, p.end_y)` on the end waypoint, leaving
`end_x` as read. The function never writes to storage. -/
def load_profile (e : EEPROM) (idx : ℕ) (p : Profile) : Bool × Profile :=
  if PROFILE_EEPROM_LEN ≤ idx then (false, p)
  else
    let q := eeprom_get e (10 * idx)
    let en := constrain_ik_point q.entry_x q.entry_y
    let bo := constrain_ik_point q.bottom_x q.bottom_y
    let mi := constrain_ik_point q.middle_x q.middle_y
    let fr := constrain_ik_point q.front_x q.front_y
    let ey := constrain_ik_point_alias q.end_y
    (true,
      { entry_x := en.1.1, entry_y := en.1.2
        bottom_x := bo.1.1, bottom_y := bo.1.2
        middle_x := mi.1.1, middle_y := mi.1.2
        front_x := fr.1.1, front_y := fr.1.2
        end_x := q.end_x, end_y := ey.1 })

/-- One iteration of the `reset_profiles` loop: set profiles[i] to the bowl
default for i < NUM_PROFILES / 2 and the plate default otherwise, then save
it to slot i. -/
def reset_step (s : (ℕ → Profile) × EEPROM) (i : ℕ) : (ℕ → Profile) × EEPROM :=
  let prof := if i < NUM_PROFILES / 2 then bowl_profile else plate_profile
  (fun j => if j = i then prof else s.1 j, (save_profile s.2 prof i).2)

/-- Profile.cpp `reset_profiles`: loop i = 0 .. NUM_PROFILES - 1 over
`reset_step`, acting on the global `profiles` array and the EEPROM. -/
def reset_profiles (ps : ℕ → Profile) (e : EEPROM) : (ℕ → Profile) × EEPROM :=
  List.foldl reset_step (ps, e) [0, 1, 2, 3]

/-- Profile.cpp `get_profile_step`. `x_addr`, `y_addr` are the prior values
of the caller's out-parameters, returned unchanged when the function
returns false. -/
def get_profile_step (p : Profile) (step : ℤ) (x_addr y_addr : F) : Bool × F × F :=
  if step = 0 then (true, p.entry_x, p.entry_y)
  else if step = 1 then (true, p.bottom_x, p.bottom_y)
  else if step = 2 then (true, p.middle_x, p.middle_y)
  else if step = 3 then (true, p.front_x, p.front_y)
  else if step = 4 then
    (true, p.end_x,
      if flt p.end_y (F.fin (-(L1 + 50))) then fadd p.end_y (F.fin 15)
      else fadd p.end_y (F.fin 25))
  else (false, x_addr, y_addr)

/-! Simp lemmas unfolding the float operations on constructor arguments. -/

@[simp] lemma fadd_fin (a b : ℝ) : fadd (F.fin a) (F.fin b) = F.fin (a + b) := rfl

@[simp] lemma fadd_nan_left (b : F) : fadd F.nan b = F.nan := by cases b <;> rfl

@[simp] lemma fadd_nan_right (a : F) : fadd a F.nan = F.nan := by cases a <;> rfl

@[simp] lemma fsub_fin (a b : ℝ) : fsub (F.fin a) (F.fin b) = F.fin (a - b) := rfl

@[simp] lemma fsub_nan_left (b : F) : fsub F.nan b = F.nan := by cases b <;> rfl

@[simp] lemma fsub_nan_right (a : F) : fsub a F.nan = F.nan := by cases a <;> rfl

@[simp] lemma fmul_fin (a b : ℝ) : fmul (F.fin a) (F.fin b) = F.fin (a * b) := rfl

@[simp] lemma fmul_nan_left (b : F) : fmul F.nan b = F.nan := by cases b <;> rfl

@[simp] lemma fmul_nan_right (a : F) : fmul a F.nan = F.nan := by cases a <;> rfl

@[simp] lemma fdiv_fin (a b : ℝ) :
    fdiv (F.fin a) (F.fin b) = if b = 0 then F.nan else F.fin (a / b) := rfl

@[simp] lemma fdiv_nan_left (b : F) : fdiv F.nan b = F.nan := by cases b <;> rfl

@[simp] lemma fdiv_nan_right (a : F) : fdiv a F.nan = F.nan := by cases a <;> rfl

@[simp] lemma fsqrt_fin (a : ℝ) :
    fsqrt (F.fin a) = if a < 0 then F.nan else F.fin (Real.sqrt a) := rfl

@[simp] lemma fsqrt_nan : fsqrt F.nan = F.nan := rfl

@[simp] lemma fsin_fin (a : ℝ) : fsin (F.fin a) = F.fin (Real.sin a) := rfl

@[simp] lemma fcos_fin (a : ℝ) : fcos (F.fin a) = F.fin (Real.cos a) := rfl

@[simp] lemma fatan2_fin (a b : ℝ) : fatan2 (F.fin a) (F.fin b) = F.fin (atan2 a b) := rfl

@[simp] lemma flt_fin (a b : ℝ) : flt (F.fin a) (F.fin b) = decide (a < b) := rfl

@[simp] lemma flt_nan_left (b : F) : flt F.nan b = false := by cases b <;> rfl

@[simp] lemma flt_nan_right (a : F) : flt a F.nan = false := by cases a <;> rfl

@[simp] lemma fgt_fin (a b : ℝ) : fgt (F.fin a) (F.fin b) = decide (b < a) := rfl

@[simp] lemma fgt_nan_left (b : F) : fgt F.nan b = false := by cases b <;> rfl

@[simp] lemma fgt_nan_right (a : F) : fgt a F.nan = false := by cases a <;> rfl

@[simp] lemma fisnan_fin (a : ℝ) : fisnan (F.fin a) = false := rfl

@[simp] lemma fisnan_nan : fisnan F.nan = true := rfl

/-! Square-root evaluations and bounds used in concrete runs of the clamp. -/

lemma sqrt_90000 : Real.sqrt (300 * 300 + 0 * 0) = 300 := by
  rw [show (300 * 300 + 0 * 0 : ℝ) = 300 ^ 2 by norm_num, Real.sqrt_sq (by norm_num)]

/-- Full evaluation of the clamp at (300, 0): the magnitude 300 exceeds
L1 + L2 = 209.5, the point is scaled down to (209.5, 0), and the y-clamp
then moves y up to -0.001. -/
lemma constrain_300_0 :
    constrain_ik_point (F.fin 300) (F.fin 0) = ((F.fin 209.5, F.fin (-0.001)), true) := by
  have h314 : Real.sqrt 98596 = 314 := by
    rw [show (98596 : ℝ) = 314 ^ 2 by norm_num, Real.sqrt_sq (by norm_num)]
  simp only [constrain_ik_point, dist_sq, fisnan_fin, Bool.or_self, Bool.false_or,
    fadd_fin, fmul_fin, fsub_fin, fdiv_fin, fsqrt_fin, flt_fin, fgt_fin, sqrt_90000]
  norm_num [L1, L2, h314]

/-- General evaluation of the clamp when the magnitude check fires the
scale-down branch, the scaled point is outside the forbidden disc (ensured
here by 0 ≤ x), and the y-clamp then fires. -/
lemma constrain_scaledown (x y m : ℝ)
    (hm : Real.sqrt (x * x + y * y) = m)
    (hmax : L1 + L2 < m)
    (hx2 : 0 ≤ x)
    (hy : -0.001 < y * ((L1 + L2) / m)) :
    constrain_ik_point (F.fin x) (F.fin y) =
      ((F.fin (x * ((L1 + L2) / m)), F.fin (-0.001)), true) := by
  have hL : (0:ℝ) < L1 + L2 := by norm_num [L1, L2]
  have hm0 : (0:ℝ) < m := lt_trans hL hmax
  have harg : (0:ℝ) ≤ x * x + y * y := by nlinarith [mul_self_nonneg x, mul_self_nonneg y]
  have hk : (0:ℝ) ≤ (L1 + L2) / m := le_of_lt (div_pos hL hm0)
  have hxk : (0:ℝ) ≤ x * ((L1 + L2) / m) := mul_nonneg hx2 hk
  have hL1 : (0:ℝ) ≤ L1 := by norm_num [L1]
  simp only [constrain_ik_point, dist_sq, fadd_fin, fmul_fin, fsub_fin, fdiv_fin, fsqrt_fin,
    flt_fin, fgt_fin, fisnan_fin, Bool.or_false, Bool.false_eq_true, if_false,
    decide_eq_true_eq]
  rw [if_neg (not_lt.mpr harg), hm]
  simp only [fgt_fin, flt_fin, decide_eq_true_eq]
  rw [if_pos hmax]
  simp only [fdiv_fin]
  rw [if_neg hm0.ne']
  simp only [fmul_fin, fsub_fin, fadd_fin, fsqrt_fin]
  have harg2 : (0:ℝ) ≤ (x * ((L1 + L2) / m) - -L1) * (x * ((L1 + L2) / m) - -L1) +
      (y * ((L1 + L2) / m) - 0) * (y * ((L1 + L2) / m) - 0) := by
    nlinarith [mul_self_nonneg (x * ((L1 + L2) / m) - -L1),
      mul_self_nonneg (y * ((L1 + L2) / m) - 0)]
  rw [if_neg (not_lt.mpr harg2)]
  simp only [flt_fin, fgt_fin, decide_eq_true_eq]
  have hdisc : ¬ (Real.sqrt ((x * ((L1 + L2) / m) - -L1) * (x * ((L1 + L2) / m) - -L1) +
      (y * ((L1 + L2) / m) - 0) * (y * ((L1 + L2) / m) - 0)) < L1) := by
    rw [not_lt]
    refine Real.le_sqrt_of_sq_le ?_
    nlinarith [mul_self_nonneg (y * ((L1 + L2) / m)), mul_nonneg hxk hL1]
  rw [if_neg hdisc]
  dsimp only
  simp only [fgt_fin, flt_fin, decide_eq_true_eq]
  rw [if_pos hy]
  dsimp only
  simp only [fgt_fin, flt_fin, decide_eq_true_eq]
  have hxc : ¬ (x * ((L1 + L2) / m) < -0.9 * (L1 + L2)) := by
    rw [not_lt]
    nlinarith
  rw [if_neg hxc]
  simp

/-- General evaluation of the clamp when no clamp fires: the point is
returned unchanged with `modified = false`. The hypotheses are the
square-free forms of the four conditions. -/
lemma constrain_noop (x y : ℝ)
    (h1 : x * x + y * y ≤ (L1 + L2) ^ 2)
    (h2 : 10 ^ 2 ≤ x * x + y * y)
    (h3 : L1 ^ 2 ≤ (x - -L1) * (x - -L1) + (y - 0) * (y - 0))
    (h4 : y ≤ -0.001)
    (h5 : -0.9 * (L1 + L2) ≤ x) :
    constrain_ik_point (F.fin x) (F.fin y) = ((F.fin x, F.fin y), false) := by
  have harg : (0:ℝ) ≤ x * x + y * y := le_trans (by norm_num) h2
  have hL : (0:ℝ) ≤ L1 + L2 := by norm_num [L1, L2]
  simp only [constrain_ik_point, dist_sq, fadd_fin, fmul_fin, fsub_fin, fdiv_fin, fsqrt_fin,
    flt_fin, fgt_fin, fisnan_fin, Bool.or_false, Bool.false_eq_true, if_false,
    decide_eq_true_eq]
  rw [if_neg (not_lt.mpr harg)]
  simp only [fgt_fin, flt_fin, decide_eq_true_eq]
  have hc1 : ¬ (L1 + L2 < Real.sqrt (x * x + y * y)) := by
    rw [not_lt]
    calc Real.sqrt (x * x + y * y) ≤ Real.sqrt ((L1 + L2) ^ 2) := Real.sqrt_le_sqrt h1
    _ = L1 + L2 := Real.sqrt_sq hL
  have hc2 : ¬ (Real.sqrt (x * x + y * y) < 10) := by
    rw [not_lt]
    exact le_trans (by norm_num) (Real.le_sqrt_of_sq_le h2)
  rw [if_neg hc1, if_neg hc2]
  dsimp only
  simp only [fmul_fin, fsub_fin, fadd_fin, fsqrt_fin, flt_fin, fgt_fin, decide_eq_true_eq]
  have harg2 : (0:ℝ) ≤ (x - -L1) * (x - -L1) + (y - 0) * (y - 0) := by
    nlinarith [mul_self_nonneg (x - -L1), mul_self_nonneg (y - 0)]
  rw [if_neg (not_lt.mpr harg2)]
  simp only [flt_fin, fgt_fin, decide_eq_true_eq]
  have hdisc : ¬ (Real.sqrt ((x - -L1) * (x - -L1) + (y - 0) * (y - 0)) < L1) := by
    rw [not_lt]
    exact Real.le_sqrt_of_sq_le h3
  rw [if_neg hdisc]
  dsimp only
  simp only [fgt_fin, flt_fin, decide_eq_true_eq]
  rw [if_neg (not_lt.mpr h4)]
  dsimp only
  simp only [fgt_fin, flt_fin, decide_eq_true_eq]
  rw [if_neg (not_lt.mpr h5)]
  simp

/-- Evaluation of the aliased clamp call on the cell value 0: the minimum
magnitude scale-up divides by the zero magnitude, leaving NaN in the cell. -/
lemma constrain_alias_zero : constrain_ik_point_alias (F.fin 0) = (F.nan, true) := by
  simp only [constrain_ik_point_alias, dist_sq, fisnan_fin, Bool.or_false, Bool.false_eq_true,
    if_false, fadd_fin, fmul_fin, fsub_fin, fdiv_fin, fsqrt_fin, flt_fin, fgt_fin,
    decide_eq_true_eq]
  norm_num [L1, L2]

/-- General evaluation of the aliased clamp call when the magnitude stage
does not fire, the forbidden-disc stage fires (with disc distance `s`), and
the resulting cell value needs no further clamping. The cell value after the
disc stage is `(((v + L1) * L1 / s - L1) * L1) / s`: the second aliased
assignment reads the cell already updated by the first. -/
lemma constrain_alias_disc (v s : ℝ)
    (h1 : v * v + v * v ≤ (L1 + L2) ^ 2)
    (h2 : 10 ^ 2 ≤ v * v + v * v)
    (hs : Real.sqrt ((v - -L1) * (v - -L1) + (v - 0) * (v - 0)) = s)
    (hsL : s < L1)
    (hs0 : 0 < s)
    (h4 : (((v + L1) * L1 / s - L1) * L1) / s ≤ -0.001)
    (h5 : -0.9 * (L1 + L2) ≤ (((v + L1) * L1 / s - L1) * L1) / s) :
    constrain_ik_point_alias (F.fin v) =
      (F.fin ((((v + L1) * L1 / s - L1) * L1) / s), true) := by
  have harg : (0:ℝ) ≤ v * v + v * v := le_trans (by norm_num) h2
  have hL : (0:ℝ) ≤ L1 + L2 := by norm_num [L1, L2]
  simp only [constrain_ik_point_alias, dist_sq, fisnan_fin, Bool.or_false, Bool.false_eq_true,
    if_false, fadd_fin, fmul_fin, fsub_fin, fdiv_fin, fsqrt_fin, flt_fin, fgt_fin,
    decide_eq_true_eq]
  rw [if_neg (not_lt.mpr harg)]
  simp only [fgt_fin, flt_fin, decide_eq_true_eq]
  have hc1 : ¬ (L1 + L2 < Real.sqrt (v * v + v * v)) := by
    rw [not_lt]
    calc Real.sqrt (v * v + v * v) ≤ Real.sqrt ((L1 + L2) ^ 2) := Real.sqrt_le_sqrt h1
    _ = L1 + L2 := Real.sqrt_sq hL
  have hc2 : ¬ (Real.sqrt (v * v + v * v) < 10) := by
    rw [not_lt]
    exact le_trans (by norm_num) (Real.le_sqrt_of_sq_le h2)
  rw [if_neg hc1, if_neg hc2]
  dsimp only
  simp only [fmul_fin, fsub_fin, fadd_fin, fsqrt_fin, flt_fin, fgt_fin, decide_eq_true_eq]
  have harg2 : (0:ℝ) ≤ (v - -L1) * (v - -L1) + (v - 0) * (v - 0) := by
    nlinarith [mul_self_nonneg (v - -L1), mul_self_nonneg (v - 0)]
  rw [if_neg (not_lt.mpr harg2), hs]
  simp only [flt_fin, fgt_fin, decide_eq_true_eq]
  rw [if_pos hsL]
  simp only [fadd_fin, fmul_fin, fdiv_fin]
  rw [if_neg hs0.ne']
  simp only [fsub_fin, fmul_fin, fdiv_fin]
  rw [if_neg hs0.ne']
  simp only [fgt_fin, flt_fin, decide_eq_true_eq]
  rw [if_neg (not_lt.mpr h4)]
  dsimp only
  simp only [fgt_fin, flt_fin, decide_eq_true_eq]
  rw [if_neg (not_lt.mpr h5)]
  simp

/-- Evaluation of the clamp at the exact origin: the minimum-magnitude
scale-up divides by the zero magnitude and both coordinates end as NaN,
with the modified flag set. -/
lemma constrain_origin : constrain_ik_point (F.fin 0) (F.fin 0) = ((F.nan, F.nan), true) := by
  simp only [constrain_ik_point, dist_sq, fisnan_fin, Bool.or_false, Bool.false_eq_true,
    if_false, fadd_fin, fmul_fin, fsub_fin, fdiv_fin, fsqrt_fin, flt_fin, fgt_fin,
    decide_eq_true_eq]
  norm_num [L1, L2]

/-- Multiplying by the float constant 1.0 (the elbow-up sign factor) is the
identity, also on NaN. -/
lemma one_fmul (s : F) : fmul (F.fin 1) s = s := by
  cases s
  · rfl
  · simp [fmul]

/-- When `constrain_ik_point` reports no modification, no clamp fired and
the point is returned unchanged. -/
lemma constrain_unmodified (x y : F) (h : (constrain_ik_point x y).2 = false) :
    constrain_ik_point x y = ((x, y), false) := by
  cases x with
  | nan => simp [constrain_ik_point] at h
  | fin a =>
    cases y with
    | nan => simp [constrain_ik_point] at h
    | fin b =>
      simp only [constrain_ik_point, dist_sq, fisnan_fin, Bool.or_false, Bool.false_eq_true,
        if_false] at h ⊢
      split_ifs at h ⊢ <;> simp_all

/-- Evaluation of the clamp at (0, -100): inside the workspace, unmodified. -/
lemma constrain_0_m100 :
    constrain_ik_point (F.fin 0) (F.fin (-100)) = ((F.fin 0, F.fin (-100)), false) :=
  constrain_noop 0 (-100) (by norm_num [L1, L2]) (by norm_num)
    (by norm_num [L1]) (by norm_num) (by norm_num [L1, L2])

/-- Evaluation of the clamp at (60, -90), the bowl default's end waypoint:
inside the workspace, unmodified. -/
lemma constrain_60_m90 :
    constrain_ik_point (F.fin 60) (F.fin (-90)) = ((F.fin 60, F.fin (-90)), false) :=
  constrain_noop 60 (-90) (by norm_num [L1, L2]) (by norm_num)
    (by norm_num [L1]) (by norm_num) (by norm_num [L1, L2])

/-- Evaluation of the clamp at (209.5, -0.001), the output of the clamp at
(300, 0): the y-clamp of the first application left the magnitude slightly
above L1 + L2 = 209.5, so the scale-down fires again. -/
lemma constrain_2095 :
    constrain_ik_point (F.fin 209.5) (F.fin (-0.001)) =
      ((F.fin (209.5 * ((L1 + L2) / Real.sqrt (209.5 * 209.5 + -0.001 * -0.001))),
        F.fin (-0.001)), true) := by
  have harg : (209.5 * 209.5 + -0.001 * -0.001 : ℝ) = 43890.250001 := by norm_num
  have hgt : (209.5:ℝ) < Real.sqrt (209.5 * 209.5 + -0.001 * -0.001) := by
    rw [harg, Real.lt_sqrt (by norm_num)]
    norm_num
  have hm0 : (0:ℝ) < Real.sqrt (209.5 * 209.5 + -0.001 * -0.001) := by linarith
  have hL : (L1 + L2 : ℝ) = 209.5 := by norm_num [L1, L2]
  refine constrain_scaledown 209.5 (-0.001) _ rfl (by rw [hL]; exact hgt) (by norm_num) ?_
  have hk : (L1 + L2) / Real.sqrt (209.5 * 209.5 + -0.001 * -0.001) < 1 := by
    rw [div_lt_one hm0, hL]
    exact hgt
  have hk0 : 0 < (L1 + L2) / Real.sqrt (209.5 * 209.5 + -0.001 * -0.001) := by
    rw [hL]
    positivity
  nlinarith

/-- Evaluation of the aliased clamp call on the cell value -90 (the bowl
default's end y): the forbidden-disc stage fires and leaves a value c with
c ≤ -99, in particular different from -90. -/
lemma alias_m90 :
    ∃ c : ℝ, constrain_ik_point_alias (F.fin (-90)) = (F.fin c, true) ∧ c ≠ -90 := by
  have ha : ((-90 - -L1) * (-90 - -L1) + (-90 - 0) * (-90 - 0) : ℝ) = 8310.25 := by
    norm_num [L1]
  have ha0 : (0:ℝ) ≤ (-90 - -L1) * (-90 - -L1) + (-90 - 0) * (-90 - 0) := by rw [ha]; norm_num
  set s : ℝ := Real.sqrt ((-90 - -L1) * (-90 - -L1) + (-90 - 0) * (-90 - 0)) with hsdef
  have h91 : (91:ℝ) < s := by
    rw [hsdef, ha, Real.lt_sqrt (by norm_num)]
    norm_num
  have h92 : s < 92 := by
    rw [hsdef, ha, Real.sqrt_lt' (by norm_num)]
    norm_num
  have hs0 : (0:ℝ) < s := by linarith
  have hsL : s < L1 := by rw [show (L1:ℝ) = 104.5 from by norm_num [L1]]; linarith
  have hdiv_ub : (-90 + L1) * L1 / s ≤ 17 := by
    rw [div_le_iff₀ hs0]
    norm_num [L1]
    nlinarith
  have hdiv_lb : (0:ℝ) ≤ (-90 + L1) * L1 / s := by
    apply div_nonneg _ (le_of_lt hs0)
    norm_num [L1]
  have hc_ub : (((-90 + L1) * L1 / s - L1) * L1) / s ≤ -99 := by
    rw [div_le_iff₀ hs0]
    have hL1v : (L1:ℝ) = 104.5 := by norm_num [L1]
    nlinarith [hdiv_ub, h92]
  have hc_lb : (-121:ℝ) ≤ (((-90 + L1) * L1 / s - L1) * L1) / s := by
    rw [le_div_iff₀ hs0]
    have hL1v : (L1:ℝ) = 104.5 := by norm_num [L1]
    nlinarith [hdiv_lb, h91]
  refine ⟨(((-90 + L1) * L1 / s - L1) * L1) / s, ?_, by linarith⟩
  refine constrain_alias_disc (-90) s (by norm_num [L1, L2]) (by norm_num) hsdef.symm hsL hs0
    (by linarith) ?_
  have hx : (-0.9 * (L1 + L2) : ℝ) = -188.55 := by norm_num [L1, L2]
  linarith

/-- Concrete test input for the round-trip claim: a profile whose five
waypoints are all (300, 0), a point the clamp changes to (209.5, -0.001). -/
def profile300 : Profile :=
  { entry_x := F.fin 300, entry_y := F.fin 0
    bottom_x := F.fin 300, bottom_y := F.fin 0
    middle_x := F.fin 300, middle_y := F.fin 0
    front_x := F.fin 300, front_y := F.fin 0
    end_x := F.fin 300, end_y := F.fin 0 }

/-- C1: the round-trip claim fails on the code for the end waypoint. Saving
the profile whose waypoints are all (300, 0) to slot 0 and loading slot 0
succeeds, but the loaded end waypoint is (300, NaN) — `end_x` is returned
unclamped and `end_y` comes from the aliased call `constrain_ik_point(end_y,
end_y)` — whereas `constrain_ik_point` applied to the stored end waypoint
(300, 0) gives (209.5, -0.001), a different point on both coordinates. -/
theorem C1_roundtrip_end_waypoint :
    (load_profile (save_profile (fun _ => F.nan) profile300 0).2 0 profile300).1 = true ∧
    (load_profile (save_profile (fun _ => F.nan) profile300 0).2 0 profile300).2.end_x =
      F.fin 300 ∧
    (load_profile (save_profile (fun _ => F.nan) profile300 0).2 0 profile300).2.end_y =
      F.nan ∧
    (constrain_ik_point profile300.end_x profile300.end_y).1 =
      (F.fin 209.5, F.fin (-0.001)) ∧
    F.fin (300:ℝ) ≠ F.fin (209.5:ℝ) ∧
    F.nan ≠ F.fin (-0.001:ℝ) := by
  refine ⟨?_, ?_, ?_, ?_, ?_, ?_⟩
  · norm_num [load_profile, save_profile, PROFILE_EEPROM_LEN]
  · norm_num [load_profile, save_profile, eeprom_get, eeprom_put, PROFILE_EEPROM_LEN,
      profile300]
  · norm_num [load_profile, save_profile, eeprom_get, eeprom_put, PROFILE_EEPROM_LEN,
      profile300, constrain_alias_zero]
  · rw [show profile300.end_x = F.fin 300 from rfl, show profile300.end_y = F.fin 0 from rfl,
      constrain_300_0]
  · intro h
    injection h with h
    norm_num at h
  · intro h
    exact F.noConfusion h

/-- C2 counterexample: `constrain_ik_point` is not idempotent. The clamp
maps (300, 0) to (209.5, -0.001); applying the clamp to that output reports
it as modified again and moves the point (the y-clamp of the first
application left the magnitude slightly above L1 + L2, so the scale-down
fires a second time). -/
theorem C2_not_idempotent_counterexample :
    (constrain_ik_point (F.fin 300) (F.fin 0)).1 = (F.fin 209.5, F.fin (-0.001)) ∧
    (constrain_ik_point (F.fin 209.5) (F.fin (-0.001))).2 = true ∧
    (constrain_ik_point (F.fin 209.5) (F.fin (-0.001))).1 ≠
      (F.fin 209.5, F.fin (-0.001)) := by
  refine ⟨by rw [constrain_300_0], by rw [constrain_2095], ?_⟩
  rw [constrain_2095]
  have harg : (209.5 * 209.5 + -0.001 * -0.001 : ℝ) = 43890.250001 := by norm_num
  have hgt : (209.5:ℝ) < Real.sqrt (209.5 * 209.5 + -0.001 * -0.001) := by
    rw [harg, Real.lt_sqrt (by norm_num)]
    norm_num
  have hm0 : (0:ℝ) < Real.sqrt (209.5 * 209.5 + -0.001 * -0.001) := by linarith
  have hL : (L1 + L2 : ℝ) = 209.5 := by norm_num [L1, L2]
  have hk : (L1 + L2) / Real.sqrt (209.5 * 209.5 + -0.001 * -0.001) < 1 := by
    rw [div_lt_one hm0, hL]
    exact hgt
  have hk0 : 0 < (L1 + L2) / Real.sqrt (209.5 * 209.5 + -0.001 * -0.001) := by
    apply div_pos _ hm0
    rw [hL]
    norm_num
  intro h
  rw [Prod.mk.injEq] at h
  obtain ⟨h1, -⟩ := h
  injection h1 with h1
  nlinarith

/-- C2 amended: idempotence does not hold for all points (see the
counterexample); what holds is that whenever `constrain_ik_point` reports a
point as not modified, it returned the point unchanged, and a second
application returns the same unchanged point with the same flag. -/
theorem C2_amended_idempotent_on_unmodified (x y : F)
    (h : (constrain_ik_point x y).2 = false) :
    constrain_ik_point x y = ((x, y), false) ∧
    constrain_ik_point (constrain_ik_point x y).1.1 (constrain_ik_point x y).1.2 =
      constrain_ik_point x y := by
  have he := constrain_unmodified x y h
  refine ⟨he, ?_⟩
  rw [he]
  exact he

/-- C2 amended, witness: at (0, -100) the clamp reports no modification,
and re-applying it is the identity as the amended claim states. -/
theorem C2_amended_witness :
    (constrain_ik_point (F.fin 0) (F.fin (-100))).2 = false ∧
    constrain_ik_point (F.fin 0) (F.fin (-100)) = ((F.fin 0, F.fin (-100)), false) ∧
    constrain_ik_point (constrain_ik_point (F.fin 0) (F.fin (-100))).1.1
        (constrain_ik_point (F.fin 0) (F.fin (-100))).1.2 =
      constrain_ik_point (F.fin 0) (F.fin (-100)) := by
  have h : (constrain_ik_point (F.fin 0) (F.fin (-100))).2 = false := by
    rw [constrain_0_m100]
  exact ⟨h, C2_amended_idempotent_on_unmodified (F.fin 0) (F.fin (-100)) h⟩

/-- C3: with D = (x² + y² - L1² - L2²) / (2 L1 L2), `calc_ik` fails exactly
when D > 1 (float comparison, false on NaN); in particular it does not fail
when D < -1; and on success it returns exactly the elbow-up solution
q2 = atan2(+sqrt(1 - D²), D), q1 = atan2(y, x) - atan2(L2 sin q2,
L1 + L2 cos q2). -/
theorem C3_calc_ik (x y D : F)
    (hD : D = fdiv (fsub (fsub (fadd (fmul x x) (fmul y y)) (fmul (F.fin L1) (F.fin L1)))
        (fmul (F.fin L2) (F.fin L2))) (fmul (fmul (F.fin 2) (F.fin L1)) (F.fin L2))) :
    (calc_ik x y = none ↔ fgt D (F.fin 1) = true) ∧
    (flt D (F.fin (-1)) = true → calc_ik x y ≠ none) ∧
    (fgt D (F.fin 1) = false →
      calc_ik x y = some
        (fsub (fatan2 y x)
          (fatan2 (fmul (F.fin L2) (fsin (fatan2 (fsqrt (fsub (F.fin 1) (fmul D D))) D)))
            (fadd (F.fin L1)
              (fmul (F.fin L2) (fcos (fatan2 (fsqrt (fsub (F.fin 1) (fmul D D))) D))))),
         fatan2 (fsqrt (fsub (F.fin 1) (fmul D D))) D)) := by
  have hiff : calc_ik x y = none ↔ fgt D (F.fin 1) = true := by
    simp only [calc_ik, twoLinkIK, ← hD]
    by_cases h : fgt D (F.fin 1) = true
    · simp [h]
    · simp [h]
  refine ⟨hiff, ?_, ?_⟩
  · intro hlt
    cases D with
    | nan => simp [flt] at hlt
    | fin d =>
      simp only [flt_fin, decide_eq_true_eq] at hlt
      have hf : fgt (F.fin d) (F.fin 1) = false := by
        simp only [fgt_fin, decide_eq_false_iff_not]
        linarith
      intro hnone
      rw [hiff, hf] at hnone
      exact Bool.noConfusion hnone
  · intro hf
    simp only [calc_ik, twoLinkIK, ← hD, hf, Bool.false_eq_true, if_false, one_fmul,
      if_true, Option.some.injEq]

/-- C3 witness: the point (0, -100) has D < 0 ≤ 1, so `calc_ik` succeeds. -/
theorem C3_calc_ik_witness : calc_ik (F.fin 0) (F.fin (-100)) ≠ none := by
  have h := C3_calc_ik (F.fin 0) (F.fin (-100)) _ rfl
  intro hnone
  rw [h.1] at hnone
  have hden : ¬ ((2 * L1 * L2 : ℝ) = 0) := by norm_num [L1, L2]
  simp only [fadd_fin, fmul_fin, fsub_fin, fdiv_fin] at hnone
  rw [if_neg hden] at hnone
  simp only [fgt_fin, decide_eq_true_eq] at hnone
  rw [lt_div_iff₀ (by norm_num [L1, L2] : (0:ℝ) < 2 * L1 * L2)] at hnone
  norm_num [L1, L2] at hnone

/-- C4: `get_profile_step` at step 4 always succeeds, returns the stored
end x unmodified, and returns end y plus 15 when end y < -(L1 + 50) and
plus 25 otherwise; with L1 = 104.5, end y = -160 yields -145 and
end y = -140 yields -115. -/
theorem C4_end_step :
    (∀ (p : Profile) (x0 y0 : F),
      (get_profile_step p 4 x0 y0).1 = true ∧
      (get_profile_step p 4 x0 y0).2.1 = p.end_x) ∧
    (∀ (p : Profile) (x0 y0 : F) (e : ℝ), p.end_y = F.fin e →
      (get_profile_step p 4 x0 y0).2.2 =
        F.fin (e + (if e < -(L1 + 50) then 15 else 25))) ∧
    (∀ (p : Profile) (x0 y0 : F), p.end_y = F.fin (-160) →
      (get_profile_step p 4 x0 y0).2.2 = F.fin (-145)) ∧
    (∀ (p : Profile) (x0 y0 : F), p.end_y = F.fin (-140) →
      (get_profile_step p 4 x0 y0).2.2 = F.fin (-115)) := by
  have hy : ∀ (p : Profile) (x0 y0 : F) (e : ℝ), p.end_y = F.fin e →
      (get_profile_step p 4 x0 y0).2.2 =
        F.fin (e + (if e < -(L1 + 50) then 15 else 25)) := by
    intro p x0 y0 e he
    simp only [get_profile_step, he]
    norm_num [flt, L1]
    split_ifs with h1
    · rfl
    · rfl
  refine ⟨?_, hy, ?_, ?_⟩
  · intro p x0 y0
    constructor <;> norm_num [get_profile_step]
  · intro p x0 y0 he
    rw [hy p x0 y0 (-160) he]
    norm_num [L1]
  · intro p x0 y0 he
    rw [hy p x0 y0 (-140) he]
    norm_num [L1]

/-- C4 witness: concrete profiles with end y = -160 and end y = -140. -/
theorem C4_end_step_witness :
    (get_profile_step { bowl_profile with end_y := F.fin (-160) } 4 (F.fin 0) (F.fin 0)).1 =
      true ∧
    (get_profile_step { bowl_profile with end_y := F.fin (-160) } 4 (F.fin 0) (F.fin 0)).2.1 =
      F.fin 60 ∧
    (get_profile_step { bowl_profile with end_y := F.fin (-160) } 4 (F.fin 0) (F.fin 0)).2.2 =
      F.fin (-145) ∧
    (get_profile_step { bowl_profile with end_y := F.fin (-140) } 4 (F.fin 0) (F.fin 0)).2.2 =
      F.fin (-115) :=
  ⟨(C4_end_step.1 { bowl_profile with end_y := F.fin (-160) } (F.fin 0) (F.fin 0)).1,
   (C4_end_step.1 { bowl_profile with end_y := F.fin (-160) } (F.fin 0) (F.fin 0)).2,
   C4_end_step.2.2.1 { bowl_profile with end_y := F.fin (-160) } (F.fin 0) (F.fin 0) rfl,
   C4_end_step.2.2.2 { bowl_profile with end_y := F.fin (-140) } (F.fin 0) (F.fin 0) rfl⟩

/-- C5: for any slot index at least 4 (the uint8_t parameter ranges over
0..255), `save_profile` fails and returns the storage unchanged, and
`load_profile` fails and returns the caller's profile unchanged (it never
writes to storage at all). -/
theorem C5_invalid_slot (e : EEPROM) (p : Profile) (idx : ℕ)
    (h4 : 4 ≤ idx) (_h256 : idx < 256) :
    save_profile e p idx = (false, e) ∧ load_profile e idx p = (false, p) := by
  constructor
  · rw [save_profile, if_pos (by rw [PROFILE_EEPROM_LEN]; exact h4)]
  · rw [load_profile, if_pos (by rw [PROFILE_EEPROM_LEN]; exact h4)]

/-- C5 witness: slot 4, one past the last valid slot. -/
theorem C5_invalid_slot_witness :
    save_profile (fun _ => F.fin 0) bowl_profile 4 = (false, fun _ => F.fin 0) ∧
    load_profile (fun _ => F.fin 0) 4 bowl_profile = (false, bowl_profile) :=
  C5_invalid_slot (fun _ => F.fin 0) bowl_profile 4 (by norm_num) (by norm_num)

/-- C6: when either input coordinate is NaN, `constrain_ik_point` replaces
the whole point by the fixed fallback (0, -100), reports it modified, and
applies none of the later clamps (the returned point is exactly the
fallback). -/
theorem C6_nan_fallback (x y : F) (h : (fisnan x || fisnan y) = true) :
    constrain_ik_point x y = ((F.fin 0, F.fin (-100)), true) := by
  rw [constrain_ik_point, if_pos h]

/-- C6 witness: the spec example constrain_ik_point((NaN, 5)). -/
theorem C6_nan_fallback_witness :
    constrain_ik_point F.nan (F.fin 5) = ((F.fin 0, F.fin (-100)), true) :=
  C6_nan_fallback F.nan (F.fin 5) (by rfl)

/-- C8: the outputs written by `calc_fk` are exactly
x = L1 cos q1 + L2 cos(q1 + q2), y = L1 sin q1 + L2 sin(q1 + q2); at
(0, 0) this is (L1 + L2, 0). The C function is declared bool but has no
return statement, so the claimed always-true success flag does not exist in
the code; only the written outputs are modelled. -/
theorem C8_calc_fk_outputs :
    (∀ q1 q2 : ℝ, calc_fk (F.fin q1) (F.fin q2) =
      (F.fin (L1 * Real.cos q1 + L2 * Real.cos (q1 + q2)),
       F.fin (L1 * Real.sin q1 + L2 * Real.sin (q1 + q2)))) ∧
    calc_fk (F.fin 0) (F.fin 0) = (F.fin (L1 + L2), F.fin 0) := by
  constructor
  · intro q1 q2
    simp [calc_fk]
  · simp [calc_fk, Real.cos_zero, Real.sin_zero]

/-- C9: `get_profile_step` fails for any step index outside 0..4 (including
negative indices), leaving the caller's output coordinates unchanged, and
for steps 0..3 succeeds with the entry, bottom, middle and front waypoints
unmodified. -/
theorem C9_step_dispatch (p : Profile) (step : ℤ) (x0 y0 : F) :
    (step < 0 ∨ 4 < step → get_profile_step p step x0 y0 = (false, x0, y0)) ∧
    get_profile_step p 0 x0 y0 = (true, p.entry_x, p.entry_y) ∧
    get_profile_step p 1 x0 y0 = (true, p.bottom_x, p.bottom_y) ∧
    get_profile_step p 2 x0 y0 = (true, p.middle_x, p.middle_y) ∧
    get_profile_step p 3 x0 y0 = (true, p.front_x, p.front_y) := by
  refine ⟨?_, ?_, ?_, ?_, ?_⟩
  · intro h
    rw [get_profile_step, if_neg (by omega), if_neg (by omega), if_neg (by omega),
      if_neg (by omega), if_neg (by omega)]
  all_goals norm_num [get_profile_step]

/-- C9 witness: a negative step index fails and leaves the outputs at their
prior values, and step 0 returns the entry waypoint. -/
theorem C9_step_dispatch_witness :
    get_profile_step bowl_profile (-1) (F.fin 7) (F.fin 8) =
      (false, F.fin 7, F.fin 8) ∧
    get_profile_step bowl_profile 0 (F.fin 7) (F.fin 8) =
      (true, F.fin (-75), F.fin (-82.5)) :=
  ⟨(C9_step_dispatch bowl_profile (-1) (F.fin 7) (F.fin 8)).1 (by norm_num),
   (C9_step_dispatch bowl_profile 0 (F.fin 7) (F.fin 8)).2.1⟩

/-- C10: at the exact origin (0, 0) — a non-NaN input — the
minimum-magnitude scale-up divides by the zero magnitude, and
`constrain_ik_point` returns a point with both coordinates NaN, reported as
modified: the safe-point guarantee does not extend to the origin. -/
theorem C10_origin_nan :
    constrain_ik_point (F.fin 0) (F.fin 0) = ((F.nan, F.nan), true) :=
  constrain_origin

/-- C7: after `reset_profiles`, loading slot 0 does NOT return the clamped
bowl default. The bowl default's end waypoint (60, -90) is a fixed point of
`constrain_ik_point` (last conjunct), so the claim predicts a loaded end y
of -90; but the loader's aliased call `constrain_ik_point(end_y, end_y)`
fires the forbidden-disc clamp on the pair (-90, -90) and stores a
different value. -/
theorem C7_reset_load_end_waypoint :
    (load_profile (reset_profiles (fun _ => bowl_profile) (fun _ => F.nan)).2 0
      bowl_profile).1 = true ∧
    (load_profile (reset_profiles (fun _ => bowl_profile) (fun _ => F.nan)).2 0
      bowl_profile).2.end_x = F.fin 60 ∧
    (load_profile (reset_profiles (fun _ => bowl_profile) (fun _ => F.nan)).2 0
      bowl_profile).2.end_y ≠ F.fin (-90) ∧
    constrain_ik_point (F.fin 60) (F.fin (-90)) = ((F.fin 60, F.fin (-90)), false) := by
  have hcell8 : (reset_profiles (fun _ => bowl_profile) (fun _ => F.nan)).2 8 = F.fin 60 := by
    norm_num [reset_profiles, reset_step, List.foldl, save_profile, NUM_PROFILES,
      PROFILE_EEPROM_LEN, eeprom_put, bowl_profile]
  have hcell9 : (reset_profiles (fun _ => bowl_profile) (fun _ => F.nan)).2 9 =
      F.fin (-90) := by
    norm_num [reset_profiles, reset_step, List.foldl, save_profile, NUM_PROFILES,
      PROFILE_EEPROM_LEN, eeprom_put, bowl_profile]
  refine ⟨?_, ?_, ?_, constrain_60_m90⟩
  · norm_num [load_profile, PROFILE_EEPROM_LEN]
  · norm_num [load_profile, PROFILE_EEPROM_LEN, eeprom_get]
    exact hcell8
  · norm_num [load_profile, PROFILE_EEPROM_LEN, eeprom_get]
    rw [hcell9]
    obtain ⟨c, hc, hne⟩ := alias_m90
    rw [hc]
    intro h
    injection h with h
    exact hne h

end

end AutoFeeder
